import Mathlib

/-!
Shallow embedding of `src/cpu.py`, a stored-program computer simulator
(256-cell memory, 8 registers, fetch-decode-dispatch loop, ALU with flags).

Modelling conventions:
* Python numbers are modelled as exact rationals `ℚ`.  All program values are
  integers until `DIV` runs: Python's true division `/` on integers returns a
  float, which we model as the exact quotient in `ℚ`.
* Python list subscripts accept negative indices (counting from the end) and
  raise `IndexError` out of range and `TypeError` on a non-integer index;
  `pyIdx` resolves an index the same way, returning `none` on both failures.
* A Python exception or `sys.exit` terminates the run; we model a fallible
  operation as `Except (PyErr × CPU) CPU`, the error carrying the machine
  state at the moment of termination.
-/

set_option maxRecDepth 40000

section CpuModel

-- Rational arithmetic in Batteries is sealed; reopen it so that concrete
-- machine states evaluate inside `decide`/`rfl` proofs.
attribute [local semireducible] Rat.add Rat.mul Rat.sub Rat.inv

/-- Resolve a Python list subscript `i` against a list of length `len`:
integer check, bounds check, and negative-index wraparound. -/
def pyIdx (len : Nat) (i : ℚ) : Option Nat :=
  if i.den = 1 then
    if 0 ≤ i.num ∧ i.num < (len : ℤ) then some i.num.toNat
    else if -(len : ℤ) ≤ i.num ∧ i.num < 0 then some (i.num + (len : ℤ)).toNat
    else none
  else none

/-- Python list read `l[i]`. -/
def pyGet (l : List ℚ) (i : ℚ) : Option ℚ :=
  (pyIdx l.length i).bind fun j => l[j]?

/-- Python list write `l[i] = v`. -/
def pySet (l : List ℚ) (i : ℚ) (v : ℚ) : Option (List ℚ) :=
  (pyIdx l.length i).map fun j => l.set j v

/-- Ways a run of `cpu.py` terminates abnormally. -/
inductive PyErr where
  /-- An out-of-range (or non-integer) list subscript. -/
  | indexError : PyErr
  /-- A bitwise operation on a non-integer value. -/
  | typeError : PyErr
  /-- A negative shift count. -/
  | valueError : PyErr
  /-- Python division by zero (`self.reg[reg_a] /= self.reg[reg_b]` with a
  zero divisor). -/
  | zeroDivisionError : PyErr
  /-- Call `sys.exit(msg)` from the `MOD` branch of the ALU. -/
  | systemExit (msg : String) : PyErr
  /-- Dict lookup `self.op_codes[IR]` with an unregistered instruction byte. -/
  | keyError : PyErr
  /-- Raise `Exception("Unsupported ALU operation")`. -/
  | unsupportedOp : PyErr
  deriving Repr, DecidableEq

/-- Machine state: the fields assigned in `CPU.__init__`, plus `out`
recording what `PRN` prints. -/
structure CPU where
  /-- Memory, `self.ram = [0] * 256`. -/
  ram : List ℚ
  /-- Register file, `self.reg = [0] * 8`. -/
  reg : List ℚ
  /-- Program counter, `self.pc = 0`. -/
  pc : ℚ
  /-- Attribute `self.sp = 7`, which the source calls the stack pointer. -/
  sp : ℚ
  /-- Equal flag, `self.E_fl = 0`. -/
  E_fl : ℚ
  /-- Less-than flag, `self.L_fl = 0`. -/
  L_fl : ℚ
  /-- Greater-than flag, `self.G_fl = 0`. -/
  G_fl : ℚ
  /-- Loop guard, `self.running = True`. -/
  running : Bool
  /-- Lines printed so far by `PRN`. -/
  out : List ℚ
  deriving Repr, DecidableEq

deriving instance DecidableEq for Except

/-- Result of executing a piece of the machine: either the next state or
the abnormal termination, the latter carrying the state at that moment. -/
abbrev Res := Except (PyErr × CPU) CPU

/-- Turn an optional subscript result into the monadic result, failing with
`IndexError` and the current state `s`. -/
def readOr (s : CPU) (o : Option α) : Except (PyErr × CPU) α :=
  match o with
  | some v => .ok v
  | none => .error (.indexError, s)

/-- A Python bitwise operand must be an integer (`TypeError` otherwise). -/
def asInt (s : CPU) (q : ℚ) : Except (PyErr × CPU) ℤ :=
  if q.den = 1 then .ok q.num else .error (.typeError, s)

/-- State built by `CPU.__init__`. -/
def CPU.init : CPU where
  ram := List.replicate 256 0
  reg := List.replicate 8 0
  pc := 0
  sp := 7
  E_fl := 0
  L_fl := 0
  G_fl := 0
  running := true
  out := []

/-- ALU, `CPU.alu(self, op, reg_a, reg_b)`: an `elif` chain on the operation
name.  Augmented assignments read `reg[reg_a]`, then `reg[reg_b]`, then
store into `reg[reg_a]`, matching Python evaluation order.  The `MOD`
guard `self.reg[reg_b] is not 0` is value inequality for the integer cells
this machine produces (CPython interns small integers).  Python `%` is
floor-remainder, `x - y*floor(x/y)`. -/
def CPU.alu (op : String) (reg_a reg_b : ℚ) (s : CPU) : Res :=
  if op = "ADD" then do
    let va ← readOr s (pyGet s.reg reg_a)
    let vb ← readOr s (pyGet s.reg reg_b)
    let r ← readOr s (pySet s.reg reg_a (va + vb))
    pure { s with reg := r }
  else if op = "SUB" then do
    let va ← readOr s (pyGet s.reg reg_a)
    let vb ← readOr s (pyGet s.reg reg_b)
    let r ← readOr s (pySet s.reg reg_a (va - vb))
    pure { s with reg := r }
  else if op = "MUL" then do
    let va ← readOr s (pyGet s.reg reg_a)
    let vb ← readOr s (pyGet s.reg reg_b)
    let r ← readOr s (pySet s.reg reg_a (va * vb))
    pure { s with reg := r }
  else if op = "DIV" then do
    -- source: `self.reg[reg_a] /= self.reg[reg_b]`, Python TRUE division
    let va ← readOr s (pyGet s.reg reg_a)
    let vb ← readOr s (pyGet s.reg reg_b)
    if vb = 0 then .error (.zeroDivisionError, s)
    else do
      let r ← readOr s (pySet s.reg reg_a (va / vb))
      pure { s with reg := r }
  else if op = "CMP" then do
    let va ← readOr s (pyGet s.reg reg_a)
    let vb ← readOr s (pyGet s.reg reg_b)
    if va < vb then pure { s with E_fl := 0, L_fl := 1, G_fl := 0 }
    else if vb < va then pure { s with E_fl := 0, L_fl := 0, G_fl := 1 }
    else if va = vb then pure { s with E_fl := 1, L_fl := 0, G_fl := 0 }
    else pure s
  else if op = "AND" then do
    let va ← readOr s (pyGet s.reg reg_a)
    let vb ← readOr s (pyGet s.reg reg_b)
    let a ← asInt s va
    let b ← asInt s vb
    let r ← readOr s (pySet s.reg reg_a ((Int.land a b : ℤ) : ℚ))
    pure { s with reg := r }
  else if op = "OR" then do
    let va ← readOr s (pyGet s.reg reg_a)
    let vb ← readOr s (pyGet s.reg reg_b)
    let a ← asInt s va
    let b ← asInt s vb
    let r ← readOr s (pySet s.reg reg_a ((Int.lor a b : ℤ) : ℚ))
    pure { s with reg := r }
  else if op = "XOR" then do
    -- source: `self.reg[reg_a] = (a | b) & ~(a & b)`
    let va ← readOr s (pyGet s.reg reg_a)
    let vb ← readOr s (pyGet s.reg reg_b)
    let a ← asInt s va
    let b ← asInt s vb
    let r ← readOr s (pySet s.reg reg_a
      ((Int.land (Int.lor a b) (Int.lnot (Int.land a b)) : ℤ) : ℚ))
    pure { s with reg := r }
  else if op = "NOT" then do
    let va ← readOr s (pyGet s.reg reg_a)
    let a ← asInt s va
    let r ← readOr s (pySet s.reg reg_a ((Int.lnot a : ℤ) : ℚ))
    pure { s with reg := r }
  else if op = "SHL" then do
    -- source: `self.reg[reg_a] << self.reg[reg_b]` — a bare expression
    -- statement; the shifted value is computed and DISCARDED.
    let va ← readOr s (pyGet s.reg reg_a)
    let vb ← readOr s (pyGet s.reg reg_b)
    let _a ← asInt s va
    let b ← asInt s vb
    if b < 0 then .error (.valueError, s) else pure s
  else if op = "SHR" then do
    -- source: `self.reg[reg_a] >> self.reg[reg_b]` — likewise discarded.
    let va ← readOr s (pyGet s.reg reg_a)
    let vb ← readOr s (pyGet s.reg reg_b)
    let _a ← asInt s va
    let b ← asInt s vb
    if b < 0 then .error (.valueError, s) else pure s
  else if op = "MOD" then do
    let vb ← readOr s (pyGet s.reg reg_b)
    if vb ≠ 0 then do
      let va ← readOr s (pyGet s.reg reg_a)
      let r ← readOr s (pySet s.reg reg_a (va - vb * (Rat.floor (va / vb) : ℚ)))
      pure { s with reg := r }
    else .error (.systemExit "Value in second register can not be zero.", s)
  else .error (.unsupportedOp, s)

/-- Handler `LDI`: `self.reg[operand_a] = operand_b; self.pc += 3`. -/
def CPU.LDI (operand_a operand_b : ℚ) (s : CPU) : Res := do
  let r ← readOr s (pySet s.reg operand_a operand_b)
  pure { s with reg := r, pc := s.pc + 3 }

/-- Handler `PRN`: `print(self.reg[operand_a]); self.pc += 2`. -/
def CPU.PRN (operand_a _operand_b : ℚ) (s : CPU) : Res := do
  let v ← readOr s (pyGet s.reg operand_a)
  pure { s with out := s.out ++ [v], pc := s.pc + 2 }

/-- Handler `HLT`: `self.running = False`. -/
def CPU.HLT (_operand_a _operand_b : ℚ) (s : CPU) : Res :=
  pure { s with running := false }

/-- Handler `PUSH`: `self.sp -= 1; self.ram[self.sp] = self.reg[operand_a];
self.pc += 2`.  The attribute `self.sp` is decremented first; the register
is read, then memory is written at the updated `self.sp`. -/
def CPU.PUSH (operand_a _operand_b : ℚ) (s : CPU) : Res := do
  let s1 := { s with sp := s.sp - 1 }
  let v ← readOr s1 (pyGet s1.reg operand_a)
  let ram1 ← readOr s1 (pySet s1.ram s1.sp v)
  pure { s1 with ram := ram1, pc := s1.pc + 2 }

/-- Handler `POP`: `self.reg[operand_a] = self.ram[self.sp]; self.sp += 1;
self.pc += 2`. -/
def CPU.POP (operand_a _operand_b : ℚ) (s : CPU) : Res := do
  let v ← readOr s (pyGet s.ram s.sp)
  let reg1 ← readOr s (pySet s.reg operand_a v)
  pure { s with reg := reg1, sp := s.sp + 1, pc := s.pc + 2 }

/-- Handler `CALL`: pushes `self.pc + 2` using `self.reg[self.sp]` as the
stack pointer (NOT the attribute `self.sp` that `PUSH`/`POP` use), then
jumps to `self.reg[operand_a]`. -/
def CPU.CALL (operand_a _operand_b : ℚ) (s : CPU) : Res := do
  let return_address := s.pc + 2
  -- `self.reg[self.sp] -= 1`
  let v ← readOr s (pyGet s.reg s.sp)
  let reg1 ← readOr s (pySet s.reg s.sp (v - 1))
  let s1 := { s with reg := reg1 }
  -- `self.ram[self.reg[self.sp]] = return_address`
  let p ← readOr s1 (pyGet s1.reg s1.sp)
  let ram1 ← readOr s1 (pySet s1.ram p return_address)
  let s2 := { s1 with ram := ram1 }
  -- `self.pc = self.reg[operand_a]`
  let t ← readOr s2 (pyGet s2.reg operand_a)
  pure { s2 with pc := t }

/-- Handler `RET`: `self.pc = self.ram[self.reg[self.sp]];
self.reg[self.sp] += 1`. -/
def CPU.RET (_operand_a _operand_b : ℚ) (s : CPU) : Res := do
  let p ← readOr s (pyGet s.reg s.sp)
  let addr ← readOr s (pyGet s.ram p)
  let s1 := { s with pc := addr }
  let v ← readOr s1 (pyGet s1.reg s1.sp)
  let reg1 ← readOr s1 (pySet s1.reg s1.sp (v + 1))
  pure { s1 with reg := reg1 }

/-- Handler `JMP`: `self.pc = self.reg[operand_a]`. -/
def CPU.JMP (operand_a _operand_b : ℚ) (s : CPU) : Res := do
  let t ← readOr s (pyGet s.reg operand_a)
  pure { s with pc := t }

/-- Handler `JEQ`: jump when `self.E_fl == 1`, else `self.pc += 2`. -/
def CPU.JEQ (operand_a operand_b : ℚ) (s : CPU) : Res :=
  if s.E_fl = 1 then CPU.JMP operand_a operand_b s
  else pure { s with pc := s.pc + 2 }

/-- Handler `JNE`: jump when `self.E_fl != 1`, else `self.pc += 2`. -/
def CPU.JNE (operand_a operand_b : ℚ) (s : CPU) : Res :=
  if s.E_fl ≠ 1 then CPU.JMP operand_a operand_b s
  else pure { s with pc := s.pc + 2 }

/-- Handler `ADD`: `self.alu('ADD', ...); self.pc += 3`. -/
def CPU.ADD (operand_a operand_b : ℚ) (s : CPU) : Res := do
  let s1 ← CPU.alu "ADD" operand_a operand_b s
  pure { s1 with pc := s1.pc + 3 }

/-- Handler `SUB`: `self.alu('SUB', ...); self.pc += 3`. -/
def CPU.SUB (operand_a operand_b : ℚ) (s : CPU) : Res := do
  let s1 ← CPU.alu "SUB" operand_a operand_b s
  pure { s1 with pc := s1.pc + 3 }

/-- Handler `MUL`: `self.alu('MUL', ...); self.pc += 3`. -/
def CPU.MUL (operand_a operand_b : ℚ) (s : CPU) : Res := do
  let s1 ← CPU.alu "MUL" operand_a operand_b s
  pure { s1 with pc := s1.pc + 3 }

/-- Handler `DIV`: `self.alu('DIV', ...); self.pc += 3`. -/
def CPU.DIV (operand_a operand_b : ℚ) (s : CPU) : Res := do
  let s1 ← CPU.alu "DIV" operand_a operand_b s
  pure { s1 with pc := s1.pc + 3 }

/-- Handler `CMP`: `self.alu('CMP', ...); self.pc += 3`. -/
def CPU.CMP (operand_a operand_b : ℚ) (s : CPU) : Res := do
  let s1 ← CPU.alu "CMP" operand_a operand_b s
  pure { s1 with pc := s1.pc + 3 }

/-- Handler `AND`: `self.alu('AND', ...); self.pc += 3`. -/
def CPU.AND (operand_a operand_b : ℚ) (s : CPU) : Res := do
  let s1 ← CPU.alu "AND" operand_a operand_b s
  pure { s1 with pc := s1.pc + 3 }

/-- Handler `OR`: `self.alu('OR', ...); self.pc += 3`. -/
def CPU.OR (operand_a operand_b : ℚ) (s : CPU) : Res := do
  let s1 ← CPU.alu "OR" operand_a operand_b s
  pure { s1 with pc := s1.pc + 3 }

/-- Handler `XOR`: `self.alu('XOR', ...); self.pc += 3`. -/
def CPU.XOR (operand_a operand_b : ℚ) (s : CPU) : Res := do
  let s1 ← CPU.alu "XOR" operand_a operand_b s
  pure { s1 with pc := s1.pc + 3 }

/-- Handler `NOT`: `self.alu('NOT', ...); self.pc += 3`. -/
def CPU.NOT (operand_a operand_b : ℚ) (s : CPU) : Res := do
  let s1 ← CPU.alu "NOT" operand_a operand_b s
  pure { s1 with pc := s1.pc + 3 }

/-- Handler `SHL`: `self.alu('SHL', ...); self.pc += 3`. -/
def CPU.SHL (operand_a operand_b : ℚ) (s : CPU) : Res := do
  let s1 ← CPU.alu "SHL" operand_a operand_b s
  pure { s1 with pc := s1.pc + 3 }

/-- Handler `SHR`: `self.alu('SHR', ...); self.pc += 3`. -/
def CPU.SHR (operand_a operand_b : ℚ) (s : CPU) : Res := do
  let s1 ← CPU.alu "SHR" operand_a operand_b s
  pure { s1 with pc := s1.pc + 3 }

/-- Handler `MOD`: `self.alu('MOD', ...); self.pc += 3`. -/
def CPU.MOD (operand_a operand_b : ℚ) (s : CPU) : Res := do
  let s1 ← CPU.alu "MOD" operand_a operand_b s
  pure { s1 with pc := s1.pc + 3 }

/-- Tags for the handlers registered in `self.op_codes`. -/
inductive Op where
  | LDI | PRN | HLT | PUSH | POP | CALL | RET | JMP | JEQ | JNE
  | ADD | SUB | MUL | DIV | MOD | CMP | AND | OR | XOR | NOT | SHL | SHR
  deriving Repr, DecidableEq

/-- Dispatch table `self.op_codes` (a dict from instruction byte to
handler); `none` models a missing key. -/
def op_codes (ir : ℚ) : Option Op :=
  if ir = 0b10000010 then some .LDI
  else if ir = 0b01000111 then some .PRN
  else if ir = 0b00000001 then some .HLT
  else if ir = 0b01000101 then some .PUSH
  else if ir = 0b01000110 then some .POP
  else if ir = 0b01010000 then some .CALL
  else if ir = 0b00010001 then some .RET
  else if ir = 0b01010100 then some .JMP
  else if ir = 0b01010101 then some .JEQ
  else if ir = 0b01010110 then some .JNE
  else if ir = 0b10100000 then some .ADD
  else if ir = 0b10100001 then some .SUB
  else if ir = 0b10100010 then some .MUL
  else if ir = 0b10100011 then some .DIV
  else if ir = 0b10100100 then some .MOD
  else if ir = 0b10100111 then some .CMP
  else if ir = 0b10101000 then some .AND
  else if ir = 0b10101010 then some .OR
  else if ir = 0b10101011 then some .XOR
  else if ir = 0b01101001 then some .NOT
  else if ir = 0b10101100 then some .SHL
  else if ir = 0b10101101 then some .SHR
  else none

/-- Run the handler selected by the dispatch table. -/
def execOp : Op → ℚ → ℚ → CPU → Res
  | .LDI, a, b, s => CPU.LDI a b s
  | .PRN, a, b, s => CPU.PRN a b s
  | .HLT, a, b, s => CPU.HLT a b s
  | .PUSH, a, b, s => CPU.PUSH a b s
  | .POP, a, b, s => CPU.POP a b s
  | .CALL, a, b, s => CPU.CALL a b s
  | .RET, a, b, s => CPU.RET a b s
  | .JMP, a, b, s => CPU.JMP a b s
  | .JEQ, a, b, s => CPU.JEQ a b s
  | .JNE, a, b, s => CPU.JNE a b s
  | .ADD, a, b, s => CPU.ADD a b s
  | .SUB, a, b, s => CPU.SUB a b s
  | .MUL, a, b, s => CPU.MUL a b s
  | .DIV, a, b, s => CPU.DIV a b s
  | .MOD, a, b, s => CPU.MOD a b s
  | .CMP, a, b, s => CPU.CMP a b s
  | .AND, a, b, s => CPU.AND a b s
  | .OR, a, b, s => CPU.OR a b s
  | .XOR, a, b, s => CPU.XOR a b s
  | .NOT, a, b, s => CPU.NOT a b s
  | .SHL, a, b, s => CPU.SHL a b s
  | .SHR, a, b, s => CPU.SHR a b s

/-- Memory Address Register read, `CPU.ram_read`: `return self.ram[MAR]`. -/
def CPU.ram_read (s : CPU) (MAR : ℚ) : Option ℚ :=
  pyGet s.ram MAR

/-- One iteration of the body of `CPU.run`: fetch `IR` and both candidate
operand bytes, look `IR` up in `self.op_codes` (a plain dict subscript, so a
missing key raises `KeyError`), and dispatch.  The source's `if opcode:`
fallback is unreachable: every value stored in the dict is a function,
hence truthy. -/
def CPU.step (s : CPU) : Res := do
  let IR ← readOr s (s.ram_read s.pc)
  let operand_a ← readOr s (s.ram_read (s.pc + 1))
  let operand_b ← readOr s (s.ram_read (s.pc + 2))
  match op_codes IR with
  | some op => execOp op operand_a operand_b s
  | none => .error (.keyError, s)

/-- Loop `while self.running:` of `CPU.run`, with fuel to keep the model
total; `runFor n s` performs at most `n` iterations. -/
def CPU.runFor : Nat → CPU → Res
  | 0, s => .ok s
  | n + 1, s =>
    if s.running then do
      let s1 ← CPU.step s
      CPU.runFor n s1
    else .ok s

/-- Standard bitwise exclusive-or on arbitrary integers, the specification
side of the XOR refinement claim. -/
def spec_xor (a b : ℤ) : ℤ :=
  Int.xor a b

/-! ### Basic lemmas about the Python list model -/

@[simp]
theorem ok_bind {ε α β : Type} (a : α) (f : α → Except ε β) :
    (Except.ok a >>= f) = f a := rfl

@[simp]
theorem error_bind {ε α β : Type} (e : ε) (f : α → Except ε β) :
    ((Except.error e : Except ε α) >>= f) = Except.error e := rfl

@[simp]
theorem pure_eq_ok {ε α : Type} (a : α) : (pure a : Except ε α) = Except.ok a := rfl

theorem pyIdx_lt {len : Nat} {i : ℚ} {j : Nat} (h : pyIdx len i = some j) :
    j < len := by
  unfold pyIdx at h
  split at h
  · split at h
    · rename_i h1
      injection h with h
      omega
    · split at h
      · rename_i h2
        injection h with h
        omega
      · exact Option.noConfusion h
  · exact Option.noConfusion h

theorem set_self_of_getElem {l : List ℚ} {n : Nat} {v : ℚ} (h : l[n]? = some v) :
    l.set n v = l := by
  induction l generalizing n with
  | nil => simp at h
  | cons x xs ih =>
    cases n with
    | zero => simp_all
    | succ m =>
      have := ih (n := m) (by simpa using h)
      simp [List.set, this]

theorem pySet_length {l l' : List ℚ} {i v : ℚ} (h : pySet l i v = some l') :
    l'.length = l.length := by
  unfold pySet at h
  cases hj : pyIdx l.length i with
  | none => rw [hj] at h; exact Option.noConfusion h
  | some j =>
    rw [hj] at h
    injection h with h
    rw [← h, List.length_set]

theorem pyGet_pySet_self {l l' : List ℚ} {i v : ℚ} (h : pySet l i v = some l') :
    pyGet l' i = some v := by
  unfold pySet at h
  cases hj : pyIdx l.length i with
  | none => rw [hj] at h; exact Option.noConfusion h
  | some j =>
    rw [hj] at h
    injection h with h
    have hlen : l'.length = l.length := by rw [← h, List.length_set]
    unfold pyGet
    rw [hlen, hj, ← h]
    simpa using List.getElem?_set_eq_of_lt v (pyIdx_lt hj)

theorem pySet_isSome_of_pyGet {l : List ℚ} {i v w : ℚ} (h : pyGet l i = some v) :
    (pySet l i w).isSome := by
  unfold pyGet at h
  unfold pySet
  cases hj : pyIdx l.length i with
  | none => rw [hj] at h; exact Option.noConfusion h
  | some j => simp

theorem pySet_self_of_pyGet {l : List ℚ} {i v : ℚ} (h : pyGet l i = some v) :
    pySet l i v = some l := by
  unfold pyGet at h
  unfold pySet
  cases hj : pyIdx l.length i with
  | none => rw [hj] at h; exact Option.noConfusion h
  | some j =>
    rw [hj] at h
    simp only [Option.some_bind'] at h
    simp [set_self_of_getElem h]

theorem pyGet_isSome_of_length_eq {l l' : List ℚ} {i : ℚ}
    (hlen : l'.length = l.length) (h : (pyGet l i).isSome) :
    (pyGet l' i).isSome := by
  unfold pyGet at h ⊢
  rw [hlen]
  cases hj : pyIdx l.length i with
  | none => rw [hj] at h; simp at h
  | some j =>
    have := pyIdx_lt hj
    simp only [Option.some_bind'] at h ⊢
    simp [List.getElem?_eq_getElem (by omega : j < l'.length)]

theorem pyGet_natCast_isSome {l : List ℚ} {n : Nat} (h : n < l.length) :
    (pyGet l (n : ℚ)).isSome := by
  unfold pyGet pyIdx
  have h1 : (0 : ℤ) ≤ (n : ℤ) := Int.natCast_nonneg n
  have h2 : (n : ℤ) < (l.length : ℤ) := by exact_mod_cast h
  simp [Rat.den_natCast, Rat.num_natCast, h1, h2, List.getElem?_eq_getElem h]

/-! ### Claims -/

/-- C1: the claim of a single stack pointer held in register slot 7,
initialized at or near the top of memory and used consistently by PUSH,
POP, CALL and RET, fails on the code.  From the initial state, `PUSH 0`
decrements the attribute `self.sp` from 7 to 6 and writes memory cell 6
(near the bottom), leaving register slot 7 untouched at 0; `CALL 0`
instead decrements register slot 7 from 0 to -1 and writes the return
address 2 at memory cell 255 via Python negative indexing.  The two
instruction pairs keep separate stack pointers, neither of which starts
at the top of memory. -/
theorem push_and_call_use_different_stack_pointers :
    (CPU.PUSH 0 0 CPU.init).toOption.map
        (fun s => (s.sp, pyGet s.reg 7, pyGet s.ram 6)) =
      some (6, some 0, some 0) ∧
    (CPU.CALL 0 0 CPU.init).toOption.map
        (fun s => (s.sp, pyGet s.reg 7, pyGet s.ram 255)) =
      some (7, some (-1), some 2) := by
  decide

/-- C2: executing the ALU operation DIV or MOD with divisor register value 0
terminates the run (Python `ZeroDivisionError` for DIV, `sys.exit` with a
diagnostic for MOD) and the register file carried at the moment of
termination is unchanged. -/
theorem div_mod_by_zero_terminates_without_mutation (s : CPU) (ra rb : ℚ)
    (ha : (pyGet s.reg ra).isSome) (hb : pyGet s.reg rb = some 0) :
    CPU.alu "DIV" ra rb s = .error (.zeroDivisionError, s) ∧
    CPU.alu "MOD" ra rb s =
      .error (.systemExit "Value in second register can not be zero.", s) := by
  obtain ⟨va, hva⟩ := Option.isSome_iff_exists.mp ha
  constructor
  · simp [CPU.alu, readOr, hva, hb]
  · simp [CPU.alu, readOr, hb]

/-- C2 witness: the theorem applied to the initial state with `ra = 0` and
`rb = 1` (both registers hold 0). -/
theorem div_mod_by_zero_terminates_without_mutation_witness :
    (pyGet CPU.init.reg 0).isSome ∧ pyGet CPU.init.reg 1 = some 0 ∧
      (CPU.alu "DIV" 0 1 CPU.init = .error (.zeroDivisionError, CPU.init) ∧
       CPU.alu "MOD" 0 1 CPU.init =
         .error (.systemExit "Value in second register can not be zero.", CPU.init)) :=
  ⟨by decide, by decide,
    div_mod_by_zero_terminates_without_mutation CPU.init 0 1 (by decide) (by decide)⟩

/-- C3: the claim that DIV stores the integer quotient fails on the code.
The source line `self.reg[reg_a] /= self.reg[reg_b]` is Python TRUE
division: with reg0 = 7 and reg1 = 2, DIV stores the fractional value 7/2
(a float in the source, the exact quotient here), which is not an integer
and differs from the integer quotient 3. -/
theorem div_stores_fractional_quotient :
    (CPU.alu "DIV" 0 1
        { CPU.init with reg := [7, 2, 0, 0, 0, 0, 0, 0] }).toOption.map
        (fun s => pyGet s.reg 0) =
      some (some (7 / 2)) ∧
    ((7 : ℚ) / 2).den ≠ 1 ∧ (7 : ℚ) / 2 ≠ 3 := by
  decide

/-- C4: the claim that SHL (and SHR) replaces regA with the shifted value
fails on the code.  The source lines `self.reg[reg_a] << self.reg[reg_b]`
and `... >> ...` are bare expression statements whose value is discarded:
with reg0 = 1 and reg1 = 3 both operations leave the state (in particular
reg0 = 1, not 8) completely unchanged. -/
theorem shl_shr_discard_their_result :
    CPU.alu "SHL" 0 1 { CPU.init with reg := [1, 3, 0, 0, 0, 0, 0, 0] } =
      .ok { CPU.init with reg := [1, 3, 0, 0, 0, 0, 0, 0] } ∧
    CPU.alu "SHR" 0 1 { CPU.init with reg := [1, 3, 0, 0, 0, 0, 0, 0] } =
      .ok { CPU.init with reg := [1, 3, 0, 0, 0, 0, 0, 0] } ∧
    (CPU.alu "SHL" 0 1
        { CPU.init with reg := [1, 3, 0, 0, 0, 0, 0, 0] }).toOption.map
        (fun s => pyGet s.reg 0) =
      some (some 1) := by
  decide

/-- C5 counterexample: with the program counter at 254 (inside the valid
address range [0,255]) and the machine Running, the cycle's third fetch
reads `self.ram[256]`, which is out of the 256-byte array: the step
terminates with an IndexError instead of performing three in-range
reads. -/
theorem fetch_at_pc_254_overruns_memory :
    CPU.step { CPU.init with pc := 254 } =
      .error (.indexError, { CPU.init with pc := 254 }) := by
  decide

/-- C5 (amended): for every state whose memory has length 256 and whose
program counter is a natural number at most 253, the three fetch reads of
a cycle (instruction byte and both candidate operand bytes) are all
in range. -/
theorem fetch_in_range_when_pc_le_253 (s : CPU) (n : Nat)
    (h : s.ram.length = 256) (hn : n ≤ 253) (hpc : s.pc = (n : ℚ)) :
    (s.ram_read s.pc).isSome ∧ (s.ram_read (s.pc + 1)).isSome ∧
      (s.ram_read (s.pc + 2)).isSome := by
  rw [hpc]
  unfold CPU.ram_read
  have k1 : ((n : ℚ)) + 1 = ((n + 1 : ℕ) : ℚ) := by push_cast; ring
  have k2 : ((n : ℚ)) + 2 = ((n + 2 : ℕ) : ℚ) := by push_cast; ring
  refine ⟨?_, ?_, ?_⟩
  · exact pyGet_natCast_isSome (by omega)
  · rw [k1]; exact pyGet_natCast_isSome (by omega)
  · rw [k2]; exact pyGet_natCast_isSome (by omega)

/-- C5 witness: the amended theorem applied to the initial state
(`pc = 0`). -/
theorem fetch_in_range_when_pc_le_253_witness :
    CPU.init.ram.length = 256 ∧ (0 : Nat) ≤ 253 ∧ CPU.init.pc = ((0 : Nat) : ℚ) ∧
      ((CPU.init.ram_read CPU.init.pc).isSome ∧
       (CPU.init.ram_read (CPU.init.pc + 1)).isSome ∧
       (CPU.init.ram_read (CPU.init.pc + 2)).isSome) :=
  ⟨by decide, by decide, by decide,
    fetch_in_range_when_pc_le_253 CPU.init 0 (by decide) (by decide) (by decide)⟩

/-- C6: when the fetched instruction byte has no registered handler in the
opcode table, the run terminates at once (the dict subscript raises
`KeyError`, an uncaught exception: diagnostic and non-zero process exit)
and the carried state — in particular the program counter — is the
pre-step state, so the program counter is not advanced further, no matter
how much fuel remains. -/
theorem unknown_opcode_terminates_run (s : CPU) (n : Nat) (IR oa ob : ℚ)
    (hrun : s.running = true)
    (h0 : s.ram_read s.pc = some IR)
    (h1 : s.ram_read (s.pc + 1) = some oa)
    (h2 : s.ram_read (s.pc + 2) = some ob)
    (hno : op_codes IR = none) :
    CPU.runFor (n + 1) s = .error (.keyError, s) := by
  unfold CPU.runFor
  rw [hrun]
  simp [CPU.step, readOr, h0, h1, h2, hno]

/-- C6 witness: the initial state fetches instruction byte 0, which is not
in the opcode table, so the very first cycle terminates the run. -/
theorem unknown_opcode_terminates_run_witness :
    CPU.init.running = true ∧
    CPU.init.ram_read CPU.init.pc = some 0 ∧
    CPU.init.ram_read (CPU.init.pc + 1) = some 0 ∧
    CPU.init.ram_read (CPU.init.pc + 2) = some 0 ∧
    op_codes 0 = none ∧
    CPU.runFor 1 CPU.init = .error (.keyError, CPU.init) :=
  ⟨by decide, by decide, by decide, by decide, by decide,
    unknown_opcode_terminates_run CPU.init 0 0 0 0 (by decide) (by decide)
      (by decide) (by decide) (by decide)⟩

/-- C7: the ALU operation CMP leaves registers (and memory, pc, sp)
unchanged and sets the three flags so that Equal is 1 exactly when
regA = regB, Less-than exactly when regA < regB, Greater-than exactly when
regA > regB; exactly one of the three is set, the other two are 0. -/
theorem cmp_sets_exactly_one_flag (s : CPU) (ra rb va vb : ℚ)
    (ha : pyGet s.reg ra = some va) (hb : pyGet s.reg rb = some vb) :
    ∃ s1, CPU.alu "CMP" ra rb s = .ok s1 ∧
      s1.reg = s.reg ∧ s1.ram = s.ram ∧ s1.pc = s.pc ∧ s1.sp = s.sp ∧
      s1.E_fl = (if va = vb then 1 else 0) ∧
      s1.L_fl = (if va < vb then 1 else 0) ∧
      s1.G_fl = (if vb < va then 1 else 0) ∧
      ((s1.E_fl = 1 ∧ s1.L_fl = 0 ∧ s1.G_fl = 0) ∨
       (s1.L_fl = 1 ∧ s1.E_fl = 0 ∧ s1.G_fl = 0) ∨
       (s1.G_fl = 1 ∧ s1.E_fl = 0 ∧ s1.L_fl = 0)) := by
  rcases lt_trichotomy va vb with h | h | h
  · refine ⟨{ s with E_fl := 0, L_fl := 1, G_fl := 0 }, ?_, rfl, rfl, rfl, rfl,
      ?_, ?_, ?_, ?_⟩
    · simp [CPU.alu, readOr, ha, hb, h]
    · simp [ne_of_lt h]
    · simp [h]
    · simp [not_lt.mpr (le_of_lt h)]
    · right; left; exact ⟨rfl, rfl, rfl⟩
  · subst h
    refine ⟨{ s with E_fl := 1, L_fl := 0, G_fl := 0 }, ?_, rfl, rfl, rfl, rfl,
      ?_, ?_, ?_, ?_⟩
    · simp [CPU.alu, readOr, ha, hb]
    · simp
    · simp
    · simp
    · left; exact ⟨rfl, rfl, rfl⟩
  · refine ⟨{ s with E_fl := 0, L_fl := 0, G_fl := 1 }, ?_, rfl, rfl, rfl, rfl,
      ?_, ?_, ?_, ?_⟩
    · simp [CPU.alu, readOr, ha, hb, h, not_lt.mpr (le_of_lt h)]
    · simp [(ne_of_lt h).symm]
    · simp [not_lt.mpr (le_of_lt h)]
    · simp [h]
    · right; right; exact ⟨rfl, rfl, rfl⟩

/-- C7 witness: the theorem applied with reg0 = 5, reg1 = 3 (the
Greater-than case). -/
theorem cmp_sets_exactly_one_flag_witness :
    pyGet ({ CPU.init with reg := [5, 3, 0, 0, 0, 0, 0, 0] } : CPU).reg 0 = some 5 ∧
    pyGet ({ CPU.init with reg := [5, 3, 0, 0, 0, 0, 0, 0] } : CPU).reg 1 = some 3 ∧
    (∃ s1, CPU.alu "CMP" 0 1 { CPU.init with reg := [5, 3, 0, 0, 0, 0, 0, 0] } = .ok s1 ∧
      s1.reg = ({ CPU.init with reg := [5, 3, 0, 0, 0, 0, 0, 0] } : CPU).reg ∧
      s1.ram = ({ CPU.init with reg := [5, 3, 0, 0, 0, 0, 0, 0] } : CPU).ram ∧
      s1.pc = ({ CPU.init with reg := [5, 3, 0, 0, 0, 0, 0, 0] } : CPU).pc ∧
      s1.sp = ({ CPU.init with reg := [5, 3, 0, 0, 0, 0, 0, 0] } : CPU).sp ∧
      s1.E_fl = (if (5 : ℚ) = 3 then 1 else 0) ∧
      s1.L_fl = (if (5 : ℚ) < 3 then 1 else 0) ∧
      s1.G_fl = (if (3 : ℚ) < 5 then 1 else 0) ∧
      ((s1.E_fl = 1 ∧ s1.L_fl = 0 ∧ s1.G_fl = 0) ∨
       (s1.L_fl = 1 ∧ s1.E_fl = 0 ∧ s1.G_fl = 0) ∨
       (s1.G_fl = 1 ∧ s1.E_fl = 0 ∧ s1.L_fl = 0))) :=
  ⟨by decide, by decide,
    cmp_sets_exactly_one_flag { CPU.init with reg := [5, 3, 0, 0, 0, 0, 0, 0] }
      0 1 5 3 (by decide) (by decide)⟩

/-- C8: a CALL whose stack write is in range pushes exactly `pc + 2` (the
address of the instruction right after the CALL) as the return address,
and an immediately following RET sets the program counter to exactly that
address. -/
theorem call_then_ret_returns_to_pc_plus_two (s : CPU) (a v : ℚ)
    (hv : pyGet s.reg s.sp = some v)
    (hram : (pySet s.ram (v - 1) (s.pc + 2)).isSome)
    (hta : (pyGet s.reg a).isSome) :
    ∃ s1 s2, CPU.CALL a 0 s = .ok s1 ∧
      pyGet s1.ram (v - 1) = some (s.pc + 2) ∧
      CPU.RET 0 0 s1 = .ok s2 ∧ s2.pc = s.pc + 2 := by
  obtain ⟨reg1, hreg1⟩ := Option.isSome_iff_exists.mp (pySet_isSome_of_pyGet hv)
  have hlen1 : reg1.length = s.reg.length := pySet_length hreg1
  have hp : pyGet reg1 s.sp = some (v - 1) := pyGet_pySet_self hreg1
  obtain ⟨ram1, hram1⟩ := Option.isSome_iff_exists.mp hram
  have hpush : pyGet ram1 (v - 1) = some (s.pc + 2) := pyGet_pySet_self hram1
  obtain ⟨t, ht⟩ :=
    Option.isSome_iff_exists.mp (pyGet_isSome_of_length_eq hlen1 hta)
  have hcall : CPU.CALL a 0 s = .ok { s with reg := reg1, ram := ram1, pc := t } := by
    simp [CPU.CALL, readOr, hv, hreg1, hp, hram1, ht]
  obtain ⟨reg2, hreg2⟩ :=
    Option.isSome_iff_exists.mp (pySet_isSome_of_pyGet (w := v) hp)
  have hret : CPU.RET 0 0 { s with reg := reg1, ram := ram1, pc := t } =
      .ok { s with reg := reg2, ram := ram1, pc := s.pc + 2 } := by
    simp [CPU.RET, readOr, hp, hpush, hreg2]
  exact ⟨_, _, hcall, hpush, hret, rfl⟩

/-- C8 witness: from the initial state with reg0 = 9 (the subroutine
address), CALL 0 pushes 2 = pc + 2 and RET returns there. -/
theorem call_then_ret_returns_to_pc_plus_two_witness :
    pyGet ({ CPU.init with reg := [9, 0, 0, 0, 0, 0, 0, 0] } : CPU).reg
        ({ CPU.init with reg := [9, 0, 0, 0, 0, 0, 0, 0] } : CPU).sp = some 0 ∧
    (pySet ({ CPU.init with reg := [9, 0, 0, 0, 0, 0, 0, 0] } : CPU).ram
        ((0 : ℚ) - 1)
        (({ CPU.init with reg := [9, 0, 0, 0, 0, 0, 0, 0] } : CPU).pc + 2)).isSome ∧
    (pyGet ({ CPU.init with reg := [9, 0, 0, 0, 0, 0, 0, 0] } : CPU).reg 0).isSome ∧
    (∃ s1 s2,
      CPU.CALL 0 0 { CPU.init with reg := [9, 0, 0, 0, 0, 0, 0, 0] } = .ok s1 ∧
      pyGet s1.ram ((0 : ℚ) - 1) =
        some (({ CPU.init with reg := [9, 0, 0, 0, 0, 0, 0, 0] } : CPU).pc + 2) ∧
      CPU.RET 0 0 s1 = .ok s2 ∧
      s2.pc = ({ CPU.init with reg := [9, 0, 0, 0, 0, 0, 0, 0] } : CPU).pc + 2) :=
  ⟨by decide, by decide, by decide,
    call_then_ret_returns_to_pc_plus_two
      { CPU.init with reg := [9, 0, 0, 0, 0, 0, 0, 0] } 0 0
      (by decide) (by decide) (by decide)⟩

/-- C9: PUSH r immediately followed by POP r (with the stack write in
range) restores register r to its prior value — the whole register file is
unchanged — and restores the stack pointer to its prior value. -/
theorem push_then_pop_restores_reg_and_sp (s : CPU) (a v : ℚ)
    (hv : pyGet s.reg a = some v)
    (hram : (pySet s.ram (s.sp - 1) v).isSome) :
    ∃ s1 s2, CPU.PUSH a 0 s = .ok s1 ∧ CPU.POP a 0 s1 = .ok s2 ∧
      s2.reg = s.reg ∧ s2.sp = s.sp := by
  obtain ⟨ram1, hram1⟩ := Option.isSome_iff_exists.mp hram
  have hpush : CPU.PUSH a 0 s =
      .ok { s with sp := s.sp - 1, ram := ram1, pc := s.pc + 2 } := by
    simp [CPU.PUSH, readOr, hv, hram1]
  have hv1 : pyGet ram1 (s.sp - 1) = some v := pyGet_pySet_self hram1
  have hset : pySet s.reg a v = some s.reg := pySet_self_of_pyGet hv
  have hpop : CPU.POP a 0 { s with sp := s.sp - 1, ram := ram1, pc := s.pc + 2 } =
      .ok { s with sp := s.sp - 1 + 1, ram := ram1, pc := s.pc + 2 + 2 } := by
    simp [CPU.POP, readOr, hv1, hset]
  exact ⟨_, _, hpush, hpop, rfl, by ring⟩

/-- C9 witness: the theorem applied to the initial state with r = 0. -/
theorem push_then_pop_restores_reg_and_sp_witness :
    pyGet CPU.init.reg 0 = some 0 ∧
    (pySet CPU.init.ram (CPU.init.sp - 1) 0).isSome ∧
    (∃ s1 s2, CPU.PUSH 0 0 CPU.init = .ok s1 ∧ CPU.POP 0 0 s1 = .ok s2 ∧
      s2.reg = CPU.init.reg ∧ s2.sp = CPU.init.sp) :=
  ⟨by decide, by decide,
    push_then_pop_restores_reg_and_sp CPU.init 0 0 (by decide) (by decide)⟩

theorem ldiff_lor_land (m n : ℕ) :
    Nat.ldiff (m ||| n) (m &&& n) = m ^^^ n := by
  apply Nat.eq_of_testBit_eq
  intro k
  simp only [Nat.testBit_ldiff, Nat.testBit_lor, Nat.testBit_land, Nat.testBit_xor]
  cases m.testBit k <;> cases n.testBit k <;> rfl

theorem lor_ldiff_swap (m n : ℕ) :
    Nat.ldiff n m ||| Nat.ldiff m n = m ^^^ n := by
  apply Nat.eq_of_testBit_eq
  intro k
  simp only [Nat.testBit_ldiff, Nat.testBit_lor, Nat.testBit_xor]
  cases m.testBit k <;> cases n.testBit k <;> rfl

theorem xor_formula_eq_xor (a b : ℤ) :
    Int.land (Int.lor a b) (Int.lnot (Int.land a b)) = spec_xor a b := by
  cases a with
  | ofNat m =>
    cases b with
    | ofNat n =>
      show Int.land (Int.lor (Int.ofNat m) (Int.ofNat n))
          (Int.lnot (Int.land (Int.ofNat m) (Int.ofNat n))) = _
      simp only [Int.lor, Int.land, Int.lnot, spec_xor, Int.xor]
      exact congrArg Int.ofNat (ldiff_lor_land m n)
    | negSucc n =>
      show Int.land (Int.lor (Int.ofNat m) (Int.negSucc n))
          (Int.lnot (Int.land (Int.ofNat m) (Int.negSucc n))) = _
      simp only [Int.lor, Int.land, Int.lnot, spec_xor, Int.xor]
      exact congrArg Int.negSucc (lor_ldiff_swap m n)
  | negSucc m =>
    cases b with
    | ofNat n =>
      show Int.land (Int.lor (Int.negSucc m) (Int.ofNat n))
          (Int.lnot (Int.land (Int.negSucc m) (Int.ofNat n))) = _
      simp only [Int.lor, Int.land, Int.lnot, spec_xor, Int.xor]
      exact congrArg Int.negSucc (by rw [Nat.lor_comm]; exact lor_ldiff_swap m n)
    | negSucc n =>
      show Int.land (Int.lor (Int.negSucc m) (Int.negSucc n))
          (Int.lnot (Int.land (Int.negSucc m) (Int.negSucc n))) = _
      simp only [Int.lor, Int.land, Int.lnot, spec_xor, Int.xor]
      exact congrArg Int.ofNat (ldiff_lor_land m n)

/-- C10: the XOR implementation's formula `(a | b) & ~(a & b)` coincides
with the standard bitwise exclusive-or for all integers, and consequently
the ALU XOR operation stores exactly the exclusive-or of regA and regB
into regA. -/
theorem xor_stores_exact_xor (s : CPU) (ra rb : ℚ) (va vb : ℤ)
    (ha : pyGet s.reg ra = some ((va : ℤ) : ℚ))
    (hb : pyGet s.reg rb = some ((vb : ℤ) : ℚ)) :
    Int.land (Int.lor va vb) (Int.lnot (Int.land va vb)) = spec_xor va vb ∧
    ∃ s1, CPU.alu "XOR" ra rb s = .ok s1 ∧
      pyGet s1.reg ra = some ((spec_xor va vb : ℤ) : ℚ) := by
  refine ⟨xor_formula_eq_xor va vb, ?_⟩
  have hay : asInt s ((va : ℤ) : ℚ) = .ok va := by
    simp [asInt, Rat.den_intCast, Rat.num_intCast]
  have hby : asInt s ((vb : ℤ) : ℚ) = .ok vb := by
    simp [asInt, Rat.den_intCast, Rat.num_intCast]
  obtain ⟨reg1, hreg1⟩ := Option.isSome_iff_exists.mp
    (pySet_isSome_of_pyGet (w :=
      ((Int.land (Int.lor va vb) (Int.lnot (Int.land va vb)) : ℤ) : ℚ)) ha)
  refine ⟨{ s with reg := reg1 }, ?_, ?_⟩
  · simp [CPU.alu, readOr, ha, hb, hay, hby, hreg1]
  · have := pyGet_pySet_self hreg1
    rwa [xor_formula_eq_xor va vb] at this

/-- C10 witness: the theorem applied with reg0 = 6 and reg1 = 10;
6 xor 10 = 12 is stored. -/
theorem xor_stores_exact_xor_witness :
    pyGet ({ CPU.init with reg := [6, 10, 0, 0, 0, 0, 0, 0] } : CPU).reg 0 =
      some (((6 : ℤ) : ℚ)) ∧
    pyGet ({ CPU.init with reg := [6, 10, 0, 0, 0, 0, 0, 0] } : CPU).reg 1 =
      some (((10 : ℤ) : ℚ)) ∧
    (Int.land (Int.lor 6 10) (Int.lnot (Int.land 6 10)) = spec_xor 6 10 ∧
     ∃ s1, CPU.alu "XOR" 0 1 { CPU.init with reg := [6, 10, 0, 0, 0, 0, 0, 0] } =
        .ok s1 ∧
       pyGet s1.reg 0 = some ((spec_xor 6 10 : ℤ) : ℚ)) :=
  ⟨by decide, by decide,
    xor_stores_exact_xor { CPU.init with reg := [6, 10, 0, 0, 0, 0, 0, 0] }
      0 1 6 10 (by decide) (by decide)⟩

end CpuModel
